import Mathlib

/-!
Verification development for the ZeroPrint front-end scripts.

The repository holds three browser scripts:
* a carbon-footprint calculator (`CarbonFootprintCalculator` class): five
  transport modes, each with a mutable distance and a fixed emission factor,
  plus derived aggregate displays and a tips request;
* a learning-page news feed: one fetch of `/api/news`, a client-side sort by
  publish date, fixed-size pagination with a category filter, and HTML-escaped
  card rendering;
* a static dashboard script (placeholder values only, nothing to verify).

The embedding below translates the computational content of those scripts.
Numbers are modelled as exact rationals `ℚ` (the source uses JS doubles; every
constant in play is small and the spec's properties are stated over real
arithmetic).  JS falsy defaults on strings (`x || 'other'`) are modelled by
testing for the empty string.  DOM reads/writes are modelled as fields of the
relevant state records (`grid` holds the `innerHTML` of the news grid); calls
that only animate or log are dropped.  Network calls are modelled by an
outcome argument describing what the `fetch` produced.
-/

namespace ZeroPrint

/-! ### Emissions calculator (`CarbonFootprintCalculator`)

Source: the calculator script.  `transportData` maps each of the five modes to
`{ distance, emission }`; the constructor (and `resetCalculator`) set the
distances to 0 and the factors to bus=0.12, car=0.21, bike=0.075, cycle=0,
walking=0. -/

/-- One entry of `this.transportData`: `{ distance, emission }`. -/
structure ModeData where
  distance : ℚ
  emission : ℚ
deriving DecidableEq

/-- `this.transportData` with its five fixed keys, in object insertion order
(bus, car, bike, cycle, walking), the order `Object.entries`/`Object.values`
iterate in. -/
structure TransportData where
  bus : ModeData
  car : ModeData
  bike : ModeData
  cycle : ModeData
  walking : ModeData
deriving DecidableEq

/-- The five transport mode keys. -/
inductive Mode where
  | bus | car | bike | cycle | walking
deriving DecidableEq

/-- The value assigned to `this.transportData` by the constructor and by
`resetCalculator`. -/
def initialTransportData : TransportData :=
  { bus := { distance := 0, emission := 0.12 }
    car := { distance := 0, emission := 0.21 }
    bike := { distance := 0, emission := 0.075 }
    cycle := { distance := 0, emission := 0 }
    walking := { distance := 0, emission := 0 } }

/-- `Object.entries(this.transportData)` in insertion order. -/
def entries (t : TransportData) : List (Mode × ModeData) :=
  [(.bus, t.bus), (.car, t.car), (.bike, t.bike), (.cycle, t.cycle), (.walking, t.walking)]

/-- Distance stored for a mode (projection helper for stating theorems). -/
def distanceOf (t : TransportData) : Mode → ℚ
  | .bus => t.bus.distance
  | .car => t.car.distance
  | .bike => t.bike.distance
  | .cycle => t.cycle.distance
  | .walking => t.walking.distance

/-- Emission factor stored for a mode (projection helper). -/
def emissionOf (t : TransportData) : Mode → ℚ
  | .bus => t.bus.emission
  | .car => t.car.emission
  | .bike => t.bike.emission
  | .cycle => t.cycle.emission
  | .walking => t.walking.emission

/-- `updateTotalDistance` / the reductions in `generateTailoredTips`:
`Object.values(this.transportData).reduce((sum, data) => sum + data.distance, 0)`. -/
def totalDistance (t : TransportData) : ℚ :=
  (entries t).foldl (fun sum e => sum + e.2.distance) 0

/-- The `totalEmission` accumulator of `updateEmissions` (also recomputed with
the same reduce in `generateTailoredTips`):
`sum + data.distance * data.emission` over all entries. -/
def totalEmission (t : TransportData) : ℚ :=
  (entries t).foldl (fun sum e => sum + e.2.distance * e.2.emission) 0

/-- The `totalSaved` accumulator of `updateEmissions`: for every mode other
than `car`, `Math.max(0, distance*0.21 - distance*emission)` is added. -/
def totalSaved (t : TransportData) : ℚ :=
  (entries t).foldl
    (fun sum e =>
      if e.1 ≠ Mode.car then sum + max 0 (e.2.distance * 0.21 - e.2.distance * e.2.emission)
      else sum) 0

/-- `updateAchievement`: `zeroEmissionDistance = cycle.distance + walking.distance`. -/
def zeroEmissionDistance (t : TransportData) : ℚ :=
  t.cycle.distance + t.walking.distance

/-- `updateAchievement`:
`totalDistance > 0 ? (zeroEmissionDistance / totalDistance) * 100 : 0`. -/
def zeroEmissionPercentage (t : TransportData) : ℚ :=
  if 0 < totalDistance t then zeroEmissionDistance t / totalDistance t * 100 else 0

/-- The zero-emission share as a fraction in `[0,1]`: the percentage computed
by `updateAchievement`, divided by 100. -/
def zeroEmissionShare (t : TransportData) : ℚ :=
  zeroEmissionPercentage t / 100

/-- `updateAchievement`'s branching on the percentage: the text written to
`.achievement-text` (the ≥50 band is the "outstanding" tier, the ≥25 band the
"good progress" tier, the rest the "needs improvement" tier). -/
def achievementText (t : TransportData) : String :=
  if 50 ≤ zeroEmissionPercentage t then
    "Outstanding! Over 50% of your travel is zero-emission."
  else if 25 ≤ zeroEmissionPercentage t then
    "Good progress! 25% of your travel is zero-emission."
  else
    "Try to increase zero-emission transportation for better impact."

/-- The derived display values recomputed by `updateCalculations` after every
change (`updateTotalDistance`, `updateEmissions`, `updateAchievement`; the bar
chart and progress circle are pure style updates of the same numbers). -/
structure Display where
  totalDistanceVal : ℚ
  totalEmissionVal : ℚ
  totalSavedVal : ℚ
  achievement : String
deriving DecidableEq

/-- `updateCalculations`, as the record of recomputed derived values. -/
def updateCalculations (t : TransportData) : Display :=
  { totalDistanceVal := totalDistance t
    totalEmissionVal := totalEmission t
    totalSavedVal := totalSaved t
    achievement := achievementText t }

/-- The assignment `this.transportData[transport].distance = value` performed
by the slider `input` handler in `setupSliders`. -/
def setModeDistance (m : Mode) (v : ℚ) (t : TransportData) : TransportData :=
  match m with
  | .bus => { t with bus := { t.bus with distance := v } }
  | .car => { t with car := { t.car with distance := v } }
  | .bike => { t with bike := { t.bike with distance := v } }
  | .cycle => { t with cycle := { t.cycle with distance := v } }
  | .walking => { t with walking := { t.walking with distance := v } }

/-- The slider `input` handler of `setupSliders`: it stores the parsed value
unconditionally and then runs `updateCalculations`.  (The handler performs no
range or NaN check on `parseFloat(e.target.value)`.) -/
def sliderInput (m : Mode) (v : ℚ) (t : TransportData) : TransportData × Display :=
  let t2 := setModeDistance m v t
  (t2, updateCalculations t2)

/-- `resetCalculator`: replaces `this.transportData` by the all-zero-distance
table (same fixed factors) and reruns `updateCalculations`. -/
def resetCalculator (_t : TransportData) : TransportData :=
  initialTransportData

/-- The payload object built at the top of `generateTailoredTips`: the five
distances plus `totalDistance` and `totalEmission`. -/
structure Snapshot where
  bus : ℚ
  car : ℚ
  bike : ℚ
  cycle : ℚ
  walking : ℚ
  totalDistanceVal : ℚ
  totalEmissionVal : ℚ
deriving DecidableEq

/-- Construction of the request payload in `generateTailoredTips`. -/
def snapshot (t : TransportData) : Snapshot :=
  { bus := t.bus.distance
    car := t.car.distance
    bike := t.bike.distance
    cycle := t.cycle.distance
    walking := t.walking.distance
    totalDistanceVal := totalDistance t
    totalEmissionVal := totalEmission t }

/-- A transport-data table whose factors are the fixed ones of the source and
whose distances are the five given values.  Every state reachable from the
constructor through `sliderInput`/`resetCalculator` has this shape. -/
def stateOfDistances (b c bk cy w : ℚ) : TransportData :=
  { bus := { distance := b, emission := 0.12 }
    car := { distance := c, emission := 0.21 }
    bike := { distance := bk, emission := 0.075 }
    cycle := { distance := cy, emission := 0 }
    walking := { distance := w, emission := 0 } }

/-! ### Tips requester (`generateTailoredTips`)

The `fetch('/api/tailored-tips', ...)` call and the subsequent rendering.  The
source never reads `response.status`/`response.ok`; it goes straight to
`response.json()`.  All awaits sit inside one `try`/`catch`, so a rejected
fetch or a rejected `json()` lands in the catch branch. -/

/-- The parsed JSON body of the tips response; `tips` is `some` when the body
has a `tips` array field. -/
structure TipsPayload where
  tips : Option (List String)
deriving DecidableEq

/-- What the tips request produced: a rejected fetch, or a response with an
HTTP status whose `json()` either rejects (`none`) or parses. -/
inductive TipsOutcome where
  | netError
  | gotResponse (status : Nat) (json : Option TipsPayload)
deriving DecidableEq

/-- What `generateTailoredTips` leaves in the tips section. -/
inductive TipsRender where
  /-- The `tips-content` list of `data.tips.slice(0, 5)`. -/
  | tipsList (shown : List String)
  /-- The `tips-error` div "Unable to generate tailored tips. Please try again."
  (the `else` of `data.tips && data.tips.length > 0`). -/
  | noTipsMessage
  /-- The `tips-error` div "Error generating tailored tips. Please try again."
  (the `catch` branch). -/
  | errorMessage
deriving DecidableEq

/-- `generateTailoredTips` as a function of the request outcome.  It is total:
every outcome is mapped to a rendered result, mirroring the fact that the
whole await chain is wrapped in `try`/`catch` and no exception escapes. -/
def generateTailoredTips (o : TipsOutcome) : TipsRender :=
  match o with
  | .netError => .errorMessage
  | .gotResponse _status json =>
    match json with
    | none => .errorMessage
    | some payload =>
      match payload.tips with
      | some ts => if 0 < ts.length then .tipsList (ts.take 5) else .noTipsMessage
      | none => .noTipsMessage

/-! ### News feed (learning page script)

`window.__NEWS_STATE__ = { allItems, page, pageSize: 9, filteredCategory:
'all', loading, reachedEnd }` plus the `#news-grid` element's `innerHTML`
(field `grid` below; the element is assumed present — the `if (!grid) return`
guards are for a missing DOM node).  `renderFeatured` only writes to the
dedicated featured slot and is not part of the grid state. -/

/-- A news item as consumed by the learning page.  Missing/undefined string
fields are modelled as the empty string (the only falsy string in JS). -/
structure NewsItem where
  title : String
  summary : String
  source : String
  published : String
  link : String
  category : String
  image : String
deriving DecidableEq

/-- JS `s || dflt` on strings: the empty string is falsy. -/
def jsOr (s dflt : String) : String :=
  if s = "" then dflt else s

/-- `String.prototype.replace` with a global single-character pattern:
every occurrence of `c` is replaced by `r`. -/
def replaceChar (c : Char) (r : List Char) : List Char → List Char
  | [] => []
  | x :: xs => (if x = c then r else [x]) ++ replaceChar c r xs

/-- `escapeHTML`: the five sequential global replaces
`& → &amp;`, `< → &lt;`, `> → &gt;`, `" → &quot;`, `\x27 → &#039;`. -/
def escapeHTML (s : String) : String :=
  String.mk
    (replaceChar '\x27' "&#039;".data
      (replaceChar '"' "&quot;".data
        (replaceChar '>' "&gt;".data
          (replaceChar '<' "&lt;".data
            (replaceChar '&' "&amp;".data s.data)))))

/-- `categoryIcon`'s `switch`. -/
def categoryIcon (category : String) : String :=
  if category = "technology" then "fas fa-microchip"
  else if category = "policy" then "fas fa-gavel"
  else if category = "science" then "fas fa-flask"
  else if category = "business" then "fas fa-briefcase"
  else "fas fa-globe"

/-- `prettyCategory`: `category.charAt(0).toUpperCase() + category.slice(1)`
(`charAt(0)` of the empty string is the empty string). -/
def prettyCategory (category : String) : String :=
  match category.data with
  | [] => ""
  | c :: rest => String.mk (c.toUpper :: rest)

/-- `renderNewsItem`: the grid-card template literal.  `source`, `title`,
`summary` and the date (`item.published`) pass through `escapeHTML`; `link`
and `image` are interpolated as-is. -/
def renderNewsItem (item : NewsItem) : String :=
  let category := (jsOr item.category "other").toLower
  let icon := categoryIcon category
  let source := escapeHTML (jsOr item.source "")
  let title := escapeHTML (jsOr item.title "")
  let summary := escapeHTML (jsOr item.summary "")
  let link := jsOr item.link "#"
  let date := escapeHTML (jsOr item.published "")
  let image := jsOr item.image ""
  "\n        <article class=\"news-card\" data-category=\"" ++ category
    ++ "\">\n            <a href=\"" ++ link
    ++ "\" target=\"_blank\" rel=\"noopener\" style=\"text-decoration:none;color:inherit;\">\n                <div class=\"news-image\">\n                    "
    ++ (if image ≠ "" then
          "<img src=\"" ++ image ++ "\" alt=\"" ++ title
            ++ "\" onerror=\"this.style.display=\x27none\x27\"/>"
        else
          "<div class=\"image-placeholder small\"><i class=\"" ++ icon ++ "\"></i></div>")
    ++ "\n                </div>\n                <div class=\"news-content\">\n                    <div class=\"news-category\">"
    ++ prettyCategory category
    ++ (if source ≠ "" then " · " ++ source else "")
    ++ "</div>\n                    <h3>" ++ title
    ++ "</h3>\n                    <p>" ++ summary
    ++ "</p>\n                    <div class=\"news-meta\">\n                        <span class=\"date\">"
    ++ date
    ++ "</span>\n                        <span class=\"read-time\">Live</span>\n                    </div>\n                </div>\n            </a>\n        </article>\n    "

/-- `emptyStateHTML()`. -/
def emptyStateHTML : String :=
  "\n        <div style=\"grid-column:1/-1;text-align:center;padding:2rem;color:#718096;\">\n            No news found right now. Please try again later.\n        </div>\n    "

/-- `errorStateHTML()`. -/
def errorStateHTML : String :=
  "\n        <div style=\"grid-column:1/-1;text-align:center;padding:2rem;color:#e53e3e;\">\n            Could not load news. Please refresh the page.\n        </div>\n    "

/-- The fixed card body produced by `createSkeletonCards` for each slot. -/
def skeletonCardHTML : String :=
  "\n        <article class=\"news-card\" aria-busy=\"true\">\n            <div class=\"news-image\">\n                <div class=\"image-placeholder small\" style=\"animation:pulse 1.2s infinite ease-in-out;\"></div>\n            </div>\n            <div class=\"news-content\">\n                <div class=\"news-category\" style=\"width:160px;height:20px;background:#e2e8f0;border-radius:8px;animation:pulse 1.2s infinite ease-in-out;\"></div>\n                <div style=\"height:20px;margin-top:12px;background:#e2e8f0;border-radius:8px;animation:pulse 1.2s infinite ease-in-out;\"></div>\n                <div style=\"height:14px;margin-top:10px;background:#edf2f7;border-radius:6px;animation:pulse 1.2s infinite ease-in-out;\"></div>\n                <div style=\"height:14px;margin-top:8px;background:#edf2f7;border-radius:6px;animation:pulse 1.2s infinite ease-in-out;\"></div>\n                <div class=\"news-meta\" style=\"margin-top:12px;opacity:.6;\">\n                    <span class=\"date\">Loading…</span>\n                    <span class=\"read-time\">Live</span>\n                </div>\n            </div>\n        </article>\n    "

/-- `Array.prototype.join('')` over rendered fragments. -/
def joinHTML : List String → String
  | [] => ""
  | s :: rest => s ++ joinHTML rest

/-- `createSkeletonCards(count)`. -/
def createSkeletonCards (count : Nat) : String :=
  joinHTML (List.replicate count skeletonCardHTML)

/-- The pagination state `window.__NEWS_STATE__` together with the grid
element's `innerHTML`. -/
structure FeedState where
  allItems : List NewsItem
  page : Nat
  pageSize : Nat
  filteredCategory : String
  loading : Bool
  reachedEnd : Bool
  grid : String
deriving DecidableEq

/-- The state created on `DOMContentLoaded`:
`{ allItems: [], page: 0, pageSize: 9, filteredCategory: 'all', loading: false, reachedEnd: false }`,
with an initially empty grid. -/
def initialFeedState : FeedState :=
  { allItems := [], page := 0, pageSize := 9, filteredCategory := "all"
    loading := false, reachedEnd := false, grid := "" }

/-- `i.category || 'other'`, the key used by the pagination filter. -/
def itemCategory (i : NewsItem) : String :=
  jsOr i.category "other"

/-- `renderNextPage()`.  Returns early when `state.reachedEnd` (the `!grid`
escape is for a missing DOM node).  Note the function does not consult
`state.loading`. -/
def renderNextPage (st : FeedState) : FeedState :=
  if st.reachedEnd then st
  else
    let start := st.page * st.pageSize
    let filtered :=
      if st.filteredCategory = "all" then st.allItems
      else st.allItems.filter (fun i => itemCategory i = st.filteredCategory)
    let pageItems := (filtered.drop start).take st.pageSize
    let st1 := if st.page = 0 then { st with grid := "" } else st
    if pageItems.length = 0 then
      let st2 := if st1.page = 0 then { st1 with grid := emptyStateHTML } else st1
      { st2 with reachedEnd := true }
    else
      { st1 with
        grid := st1.grid ++ joinHTML (pageItems.map renderNewsItem)
        page := st1.page + 1 }

/-- The category-button click handler of `setupCategoryFiltering`: set
`filteredCategory`, reset `page` to 0 and `reachedEnd` to false, then run
`renderNextPage()` once. -/
def setCategory (cat : String) (st : FeedState) : FeedState :=
  renderNextPage { st with filteredCategory := cat, page := 0, reachedEnd := false }

/-- The scroll listener of `setupInfiniteScroll`: skip when `loading` or
`reachedEnd`; otherwise call `renderNextPage()` when the scroll position
passes the threshold (`document.body.offsetHeight - 300`). -/
def onScroll (scrollPosition threshold : ℤ) (st : FeedState) : FeedState :=
  if st.loading || st.reachedEnd then st
  else if threshold ≤ scrollPosition then renderNextPage st else st

/-! #### The publish-date sort

`sorted.sort((a, b) => new Date(b.published || 0) - new Date(a.published || 0))`.
`new Date(x)` is a host call; it is modelled by an oracle
`parse : String → Option ℤ` giving the millisecond timestamp of a parseable
date string and `none` for an invalid date (whose numeric value is NaN).
`published || 0` turns a missing/empty field into `new Date(0)`, epoch 0.
Subtraction involving NaN is NaN, and a NaN comparator result makes
`Array.prototype.sort` treat the pair as equal (neither `> 0` nor `< 0`), so
the pair keeps its relative order.  ES2019 requires `sort` to be stable, and
any stable sort realises it for a consistent comparator; the embedding uses
the stable `List.mergeSort` with `le a b = ¬(compare a b > 0)`. -/

/-- Whether a JS comparator result is `> 0`; NaN (`none`) is not. -/
def jsGtZero : Option ℤ → Bool
  | some v => decide (0 < v)
  | none => false

/-- JS numeric subtraction where either operand may be NaN. -/
def optSub : Option ℤ → Option ℤ → Option ℤ
  | some x, some y => some (x - y)
  | _, _ => none

/-- The numeric value of `new Date(pub || 0)`: epoch for a missing field,
the parsed timestamp otherwise (`none` = NaN, invalid date). -/
def dateNum (parse : String → Option ℤ) (pub : String) : Option ℤ :=
  if pub = "" then some 0 else parse pub

/-- The comparator `(a, b) => new Date(b.published || 0) - new Date(a.published || 0)`. -/
def newsCompare (parse : String → Option ℤ) (a b : NewsItem) : Option ℤ :=
  optSub (dateNum parse b.published) (dateNum parse a.published)

/-- "`a` need not move after `b`": the comparator result is not `> 0`. -/
def newsLE (parse : String → Option ℤ) (a b : NewsItem) : Bool :=
  ! jsGtZero (newsCompare parse a b)

/-- The `sorted.sort(...)` step of `fetchLiveNews`, as a stable sort under
the JS comparator semantics above. -/
def sortNews (parse : String → Option ℤ) (items : List NewsItem) : List NewsItem :=
  items.mergeSort (newsLE parse)

/-! #### `fetchLiveNews` -/

/-- The parsed JSON body of `/api/news`; `items` is `some` exactly when the
body's `items` field is an array (`Array.isArray(data.items)`). -/
structure NewsPayload where
  items : Option (List NewsItem)
deriving DecidableEq

/-- The `fetch('/api/news')` response: `ok` status flag plus the result of
`response.json()` (`none` when it rejects). -/
structure NewsResponse where
  ok : Bool
  json : Option NewsPayload
deriving DecidableEq

/-- What the news fetch produced. -/
inductive NewsOutcome where
  | netError
  | gotResponse (r : NewsResponse)
deriving DecidableEq

/-- `fetchLiveNews(initial)`.  Early return while a fetch is in flight;
skeletons on the initial call; `throw` on `!response.ok` — caught, like a
network or `json()` failure, by the `catch` that writes `errorStateHTML`;
an empty (or non-array) `items` yields the empty state and `reachedEnd`;
otherwise the sorted list is stored and the first page rendered.
`loading` is true only inside the call and is reset by `finally`, so the
state returned carries `loading` as it entered. -/
def fetchLiveNews (parse : String → Option ℤ) (initial : Bool) (o : NewsOutcome)
    (st : FeedState) : FeedState :=
  if st.loading then st
  else
    let st := if initial then { st with grid := createSkeletonCards st.pageSize } else st
    match o with
    | .netError => { st with grid := errorStateHTML }
    | .gotResponse r =>
      if !r.ok then { st with grid := errorStateHTML }
      else
        match r.json with
        | none => { st with grid := errorStateHTML }
        | some payload =>
          let items := payload.items.getD []
          if items.length = 0 then
            { st with grid := emptyStateHTML, reachedEnd := true }
          else
            let sorted := sortNews parse items
            renderNextPage { st with allItems := sorted, page := 0, reachedEnd := false }

/-! ### Sample data used by closed witnesses and counterexamples -/

/-- A concrete news item used by closed statements below. -/
def sampleItem : NewsItem :=
  { title := "T", summary := "S", source := "N", published := "2024-01-01"
    link := "https://example.org/a", category := "science", image := "" }

/-- A feed state with a fetch in flight (`loading = true`) and items present. -/
def loadingFeed : FeedState :=
  { allItems := [sampleItem], page := 0, pageSize := 9, filteredCategory := "all"
    loading := true, reachedEnd := false, grid := "" }

/-- A feed state that is both exhausted and mid-fetch. -/
def exhaustedFeed : FeedState :=
  { allItems := [sampleItem], page := 1, pageSize := 9, filteredCategory := "all"
    loading := true, reachedEnd := true, grid := "g" }

/-! ### Claim C9 -/

/-- Claim C9: `reset()` is idempotent — calling it twice from any state yields
the same state as calling it once — and from every prior state, `reset()`
followed by `snapshot()` yields all-zero distances for every mode and
`totalEmission` equal to 0. -/
theorem reset_idempotent_and_snapshot_zero (t : TransportData) :
    resetCalculator (resetCalculator t) = resetCalculator t
    ∧ snapshot (resetCalculator t) =
        { bus := 0, car := 0, bike := 0, cycle := 0, walking := 0
          totalDistanceVal := 0, totalEmissionVal := 0 } :=
  ⟨rfl, by
    norm_num [resetCalculator, snapshot, initialTransportData, totalDistance,
      totalEmission, entries]⟩

/-! ### Claim C3 (corrected) -/

/-- Claim C3 counterexample: the slider handler performs no validation.  For
the invalid value −5 (not a finite number ≥ 0) it does not fail: it overwrites
the mode's `distanceKm` (0 becomes −5), contradicting "fails with
`InvalidInput` and does not overwrite the mode's `distanceKm`". -/
theorem setDistance_invalid_overwrites :
    (sliderInput Mode.car (-5) initialTransportData).1.car.distance = -5
    ∧ initialTransportData.car.distance = 0 := by
  norm_num [sliderInput, setModeDistance, initialTransportData]

/-- Claim C3 amended: the slider `input` handler performs no validation — for
every mode and every value (negative values included) it overwrites that
mode's `distanceKm` with the value, leaves the other modes' distances and all
emission factors unchanged, and triggers the full recomputation of the derived
aggregate values from the updated table. -/
theorem sliderInput_no_validation (m : Mode) (v : ℚ) (t : TransportData) :
    distanceOf (sliderInput m v t).1 m = v
    ∧ (∀ m2 : Mode, m2 ≠ m → distanceOf (sliderInput m v t).1 m2 = distanceOf t m2)
    ∧ (∀ m2 : Mode, emissionOf (sliderInput m v t).1 m2 = emissionOf t m2)
    ∧ (sliderInput m v t).2 = updateCalculations (setModeDistance m v t) := by
  refine ⟨?_, ?_, ?_, rfl⟩
  · cases m <;> rfl
  · intro m2 h
    cases m <;> cases m2 <;> first | exact absurd rfl h | rfl
  · intro m2
    cases m <;> cases m2 <;> rfl

/-- Closed witness for the amended C3 theorem. -/
theorem sliderInput_no_validation_witness :
    distanceOf (sliderInput Mode.bus 7 initialTransportData).1 Mode.bus = 7
    ∧ distanceOf (sliderInput Mode.bus 7 initialTransportData).1 Mode.car
        = distanceOf initialTransportData Mode.car :=
  ⟨(sliderInput_no_validation Mode.bus 7 initialTransportData).1,
   (sliderInput_no_validation Mode.bus 7 initialTransportData).2.1 Mode.car (by decide)⟩

/-! ### Claim C6 -/

/-- Claim C6: for all non-negative distance assignments, `totalEmission`
equals the sum over modes of `distanceKm` times the mode's fixed emission
factor (bus 0.12, car 0.21, bike 0.075, cycle 0, walking 0); for distances
`{bus:10, car:5, bike:0, cycle:20, walking:5}` the aggregates are
`totalDistance = 40`, `totalEmission = 2.25`, `zeroEmissionShare = 0.625`,
and the achievement lands in the "outstanding" band. -/
theorem totalEmission_sum_and_scenario (b c bk cy w : ℚ)
    (hb : 0 ≤ b) (hc : 0 ≤ c) (hbk : 0 ≤ bk) (hcy : 0 ≤ cy) (hw : 0 ≤ w) :
    totalEmission (stateOfDistances b c bk cy w)
      = b * 0.12 + c * 0.21 + bk * 0.075 + cy * 0 + w * 0
    ∧ totalDistance (stateOfDistances 10 5 0 20 5) = 40
    ∧ totalEmission (stateOfDistances 10 5 0 20 5) = 2.25
    ∧ zeroEmissionShare (stateOfDistances 10 5 0 20 5) = 0.625
    ∧ achievementText (stateOfDistances 10 5 0 20 5)
        = "Outstanding! Over 50% of your travel is zero-emission." := by
  have hT : totalDistance (stateOfDistances 10 5 0 20 5) = 40 := by
    norm_num [totalDistance, entries, stateOfDistances]
  have hZ : zeroEmissionDistance (stateOfDistances 10 5 0 20 5) = 25 := by
    norm_num [zeroEmissionDistance, stateOfDistances]
  have hP : zeroEmissionPercentage (stateOfDistances 10 5 0 20 5) = 62.5 := by
    unfold zeroEmissionPercentage
    rw [hT, hZ, if_pos (by norm_num : (0:ℚ) < 40)]
    norm_num
  refine ⟨?_, hT, ?_, ?_, ?_⟩
  · norm_num [totalEmission, entries, stateOfDistances]
  · norm_num [totalEmission, entries, stateOfDistances]
  · unfold zeroEmissionShare
    rw [hP]
    norm_num
  · unfold achievementText
    rw [hP, if_pos (by norm_num : (50:ℚ) ≤ 62.5)]

/-- Closed witness for the C6 theorem. -/
theorem totalEmission_sum_witness :
    (0:ℚ) ≤ 10 ∧
    totalEmission (stateOfDistances 10 5 0 20 5)
      = 10 * 0.12 + 5 * 0.21 + 0 * 0.075 + 20 * 0 + 5 * 0 :=
  ⟨by norm_num,
   (totalEmission_sum_and_scenario 10 5 0 20 5 (by norm_num) (by norm_num)
      (by norm_num) (by norm_num) (by norm_num)).1⟩

/-! ### Claim C8 -/

/-- Claim C8: for every assignment of non-negative distances to the five
modes, `zeroEmissionShare` lies in `[0,1]`, and it equals exactly 0 whenever
`totalDistance` equals 0. -/
theorem zeroEmissionShare_unit_interval (b c bk cy w : ℚ)
    (hb : 0 ≤ b) (hc : 0 ≤ c) (hbk : 0 ≤ bk) (hcy : 0 ≤ cy) (hw : 0 ≤ w) :
    0 ≤ zeroEmissionShare (stateOfDistances b c bk cy w)
    ∧ zeroEmissionShare (stateOfDistances b c bk cy w) ≤ 1
    ∧ (totalDistance (stateOfDistances b c bk cy w) = 0 →
        zeroEmissionShare (stateOfDistances b c bk cy w) = 0) := by
  have hT : totalDistance (stateOfDistances b c bk cy w) = b + c + bk + cy + w := by
    simp [totalDistance, entries, stateOfDistances]
  have hZ : zeroEmissionDistance (stateOfDistances b c bk cy w) = cy + w := by
    simp [zeroEmissionDistance, stateOfDistances]
  unfold zeroEmissionShare zeroEmissionPercentage
  rw [hT, hZ]
  by_cases hpos : 0 < b + c + bk + cy + w
  · rw [if_pos hpos]
    have h0 : 0 ≤ (cy + w) / (b + c + bk + cy + w) :=
      div_nonneg (by linarith) (le_of_lt hpos)
    have h1 : (cy + w) / (b + c + bk + cy + w) ≤ 1 := by
      rw [div_le_one hpos]; linarith
    refine ⟨by positivity, ?_, ?_⟩
    · rw [div_le_one (by norm_num : (0:ℚ) < 100)]
      nlinarith
    · intro hzero
      exact absurd hzero (by linarith)
  · rw [if_neg hpos]
    exact ⟨by norm_num, by norm_num, fun _ => by norm_num⟩

/-- Closed witness for the C8 theorem. -/
theorem zeroEmissionShare_unit_interval_witness :
    (0:ℚ) ≤ 1 ∧ 0 ≤ zeroEmissionShare (stateOfDistances 1 2 3 4 5)
    ∧ zeroEmissionShare (stateOfDistances 1 2 3 4 5) ≤ 1 :=
  ⟨by norm_num,
   (zeroEmissionShare_unit_interval 1 2 3 4 5 (by norm_num) (by norm_num)
      (by norm_num) (by norm_num) (by norm_num)).1,
   (zeroEmissionShare_unit_interval 1 2 3 4 5 (by norm_num) (by norm_num)
      (by norm_num) (by norm_num) (by norm_num)).2.1⟩

/-! ### Claim C2 (corrected) -/

/-- Claim C2 counterexample: `generateTailoredTips` never consults the HTTP
status.  A response with the non-2xx status 500 whose body parses to a
non-empty `tips` array is rendered as a tips list, not as the fixed fallback
message the claim requires for every non-2xx outcome. -/
theorem tips_nonSuccess_status_renders_tips :
    generateTailoredTips (.gotResponse 500 (some { tips := some ["Walk more"] }))
      = .tipsList ["Walk more"] := by
  decide

/-- Claim C2 amended: `generateTailoredTips` is total (the whole await chain
is inside `try`/`catch`, so no rejection escapes) and never renders an empty
tips list: a parsed body with zero or missing tips yields the fixed
"Unable to generate tailored tips" fallback, and a rejected fetch or a
rejected `json()` yields the fixed "Error generating tailored tips" fallback.
The HTTP status is never consulted, so a non-2xx response whose body parses
to a non-empty tips array is rendered as (at most five) tips rather than as
a fallback message. -/
theorem tips_fallback_behavior (st : Nat) (ts : List String) (h : ts ≠ []) :
    generateTailoredTips .netError = .errorMessage
    ∧ generateTailoredTips (.gotResponse st none) = .errorMessage
    ∧ generateTailoredTips (.gotResponse st (some { tips := none })) = .noTipsMessage
    ∧ generateTailoredTips (.gotResponse st (some { tips := some [] })) = .noTipsMessage
    ∧ generateTailoredTips (.gotResponse st (some { tips := some ts })) = .tipsList (ts.take 5)
    ∧ ts.take 5 ≠ []
    ∧ (∀ st2 : Nat, ∀ j : Option TipsPayload,
        generateTailoredTips (.gotResponse st j) = generateTailoredTips (.gotResponse st2 j))
    ∧ (∀ o : TipsOutcome, ∀ l : List String,
        generateTailoredTips o = .tipsList l → l ≠ []) := by
  obtain ⟨x, xs, rfl⟩ : ∃ x xs, ts = x :: xs := by
    cases ts with
    | nil => exact absurd rfl h
    | cons x xs => exact ⟨x, xs, rfl⟩
  refine ⟨rfl, rfl, rfl, rfl, ?_, by simp, fun st2 j => rfl, ?_⟩
  · simp [generateTailoredTips]
  · intro o l he
    cases o with
    | netError => simp [generateTailoredTips] at he
    | gotResponse s j =>
      cases j with
      | none => simp [generateTailoredTips] at he
      | some payload =>
        cases hp : payload.tips with
        | none => simp [generateTailoredTips, hp] at he
        | some ts2 =>
          by_cases hl : 0 < ts2.length
          · simp only [generateTailoredTips, hp, if_pos hl] at he
            obtain ⟨y, ys, rfl⟩ : ∃ y ys, ts2 = y :: ys := by
              cases ts2 with
              | nil => simp at hl
              | cons y ys => exact ⟨y, ys, rfl⟩
            cases he
            simp
          · simp [generateTailoredTips, hp, if_neg hl] at he

/-- Closed witness for the amended C2 theorem. -/
theorem tips_fallback_behavior_witness :
    generateTailoredTips (.gotResponse 200 (some { tips := some ["a", "b"] }))
      = .tipsList ["a", "b"]
    ∧ (["a", "b"] : List String).take 5 ≠ [] := by
  have H := tips_fallback_behavior 200 ["a", "b"] (by decide)
  exact ⟨by simpa using H.2.2.2.2.1, H.2.2.2.2.2.1⟩

/-! ### Claim C5 (corrected) -/

/-- Claim C5 counterexample: with a fetch in flight (`loading = true`) and the
exhausted flag clear, `renderNextPage()` is not a no-op — it increments
`pageIndex` from 0 to 1 and changes the rendered grid.  Only the scroll
trigger, not `renderNextPage()` itself, checks the in-flight flag. -/
theorem nextPage_during_fetch_changes_state :
    loadingFeed.loading = true
    ∧ loadingFeed.reachedEnd = false
    ∧ loadingFeed.page = 0
    ∧ (renderNextPage loadingFeed).page = 1
    ∧ (renderNextPage loadingFeed).grid ≠ loadingFeed.grid := by
  decide

/-- Claim C5 amended: when the exhausted flag is set, `nextPage()` is a no-op
(the whole state, in particular `pageIndex` and the rendered output, is
unchanged); an in-flight fetch by itself does not make `nextPage()` a no-op —
the in-flight guard lives in the scroll trigger, which skips the call while
`loading` is set. -/
theorem nextPage_noop_exhausted_scroll_guard (st : FeedState)
    (scrollPosition threshold : ℤ) :
    (st.reachedEnd = true → renderNextPage st = st)
    ∧ (st.loading = true → onScroll scrollPosition threshold st = st) := by
  constructor
  · intro h; simp [renderNextPage, h]
  · intro h; simp [onScroll, h]

/-- Closed witness for the amended C5 theorem. -/
theorem nextPage_noop_exhausted_witness :
    renderNextPage exhaustedFeed = exhaustedFeed
    ∧ onScroll 0 0 exhaustedFeed = exhaustedFeed :=
  ⟨(nextPage_noop_exhausted_scroll_guard exhaustedFeed 0 0).1 rfl,
   (nextPage_noop_exhausted_scroll_guard exhaustedFeed 0 0).2 rfl⟩

/-! ### Claim C1 (corrected) -/

/-- A technology-category item used by the C1 scenario. -/
def techItem (n : Nat) : NewsItem :=
  { title := "Tech " ++ toString n, summary := "", source := "", published := ""
    link := "", category := "technology", image := "" }

/-- A science-category item used by the C1 scenario. -/
def otherItem (n : Nat) : NewsItem :=
  { title := "Other " ++ toString n, summary := "", source := "", published := ""
    link := "", category := "science", image := "" }

/-- A feed of 12 fetched items of which exactly 3 match category
"technology", with `pageSize = 9`. -/
def feedTwelve : FeedState :=
  { allItems := [techItem 1, otherItem 1, otherItem 2, techItem 2, otherItem 3,
      otherItem 4, otherItem 5, techItem 3, otherItem 6, otherItem 7,
      otherItem 8, otherItem 9]
    page := 1, pageSize := 9, filteredCategory := "all", loading := false
    reachedEnd := false, grid := "old" }

/-- Claim C1 counterexample: on a feed of 12 items with exactly 3 matching
"technology" and `pageSize = 9`, the first `nextPage()` run by
`setCategory('technology')` leaves the exhausted flag false — `reachedEnd` is
only set by a `nextPage()` whose page slice comes back empty, which here is
the second call. -/
theorem setCategory_scenario_not_exhausted :
    feedTwelve.allItems.length = 12
    ∧ (feedTwelve.allItems.filter (fun i => itemCategory i = "technology")).length = 3
    ∧ feedTwelve.pageSize = 9
    ∧ (setCategory "technology" feedTwelve).reachedEnd = false := by
  decide

/-- Claim C1 amended: after `setCategory('technology')` on a feed of 12
fetched items of which exactly 3 match category "technology", with
`pageSize = 9`, the first `nextPage()` call (run by the category handler)
renders exactly those 3 items (the grid holds exactly their cards, in order)
and advances `pageIndex` to 1, but leaves the exhausted flag false; the
exhausted flag becomes true only on the following `nextPage()` call, which
changes neither the rendered output nor `pageIndex`. -/
theorem setCategory_renders_three_not_exhausted (st : FeedState)
    (h12 : st.allItems.length = 12)
    (h3 : (st.allItems.filter (fun i => itemCategory i = "technology")).length = 3)
    (h9 : st.pageSize = 9) :
    (setCategory "technology" st).grid
      = joinHTML ((st.allItems.filter (fun i => itemCategory i = "technology")).map renderNewsItem)
    ∧ (setCategory "technology" st).page = 1
    ∧ (setCategory "technology" st).reachedEnd = false
    ∧ (renderNextPage (setCategory "technology" st)).reachedEnd = true
    ∧ (renderNextPage (setCategory "technology" st)).grid = (setCategory "technology" st).grid
    ∧ (renderNextPage (setCategory "technology" st)).page = (setCategory "technology" st).page := by
  set F := st.allItems.filter (fun i => itemCategory i = "technology") with hF
  have htake : F.take 9 = F := List.take_of_length_le (by rw [h3]; norm_num)
  have hdrop : F.drop 9 = [] := List.drop_eq_nil_of_le (by rw [h3]; norm_num)
  have hFne : F.length = 0 ↔ False := by rw [h3]; norm_num
  have key : setCategory "technology" st =
      { st with
          filteredCategory := "technology"
          reachedEnd := false
          grid := joinHTML (F.map renderNewsItem)
          page := 1 } := by
    unfold setCategory renderNextPage
    simp [← hF, h9, htake, hFne]
  have key2 : renderNextPage
      { st with
          filteredCategory := "technology"
          reachedEnd := false
          grid := joinHTML (F.map renderNewsItem)
          page := 1 }
      = { st with
          filteredCategory := "technology"
          reachedEnd := true
          grid := joinHTML (F.map renderNewsItem)
          page := 1 } := by
    unfold renderNextPage
    simp [← hF, h9, hdrop]
  rw [key, key2]
  exact ⟨rfl, rfl, rfl, rfl, rfl, rfl⟩

/-- Closed witness for the amended C1 theorem. -/
theorem setCategory_renders_three_witness :
    feedTwelve.allItems.length = 12
    ∧ (setCategory "technology" feedTwelve).page = 1
    ∧ (setCategory "technology" feedTwelve).reachedEnd = false
    ∧ (renderNextPage (setCategory "technology" feedTwelve)).reachedEnd = true := by
  have H := setCategory_renders_three_not_exhausted feedTwelve (by decide) (by decide) (by decide)
  exact ⟨by decide, H.2.1, H.2.2.1, H.2.2.2.1⟩

/-! ### Helper lemmas on the pager -/

/-- `renderNextPage` never changes `allItems`. -/
theorem renderNextPage_allItems (s2 : FeedState) :
    (renderNextPage s2).allItems = s2.allItems := by
  unfold renderNextPage
  split
  · rfl
  · dsimp only
    split <;>
      simp only [apply_ite FeedState.allItems, ite_self]

/-- A grid that starts with a rendered card is not the error message: the two
strings already differ within their first eleven characters. -/
theorem cards_ne_error (x : NewsItem) (s : String) :
    renderNewsItem x ++ s ≠ errorStateHTML := by
  intro h
  have hd := congrArg (fun q : String => q.data.take 11) h
  simp only [renderNewsItem, String.data_append, List.append_assoc] at hd
  rw [List.take_append_of_le_length
    (show 11 ≤ "\n        <article class=\"news-card\" data-category=\"".data.length by decide)] at hd
  exact absurd hd (by decide)

/-- From a cursor at page 0 that is not exhausted, `renderNextPage` leaves the
grid holding either the empty-state message or a non-empty run of rendered
cards. -/
theorem renderNextPage_page0_grid (s2 : FeedState) (h0 : s2.page = 0)
    (hre : s2.reachedEnd = false) :
    (renderNextPage s2).grid = emptyStateHTML
    ∨ ∃ x r, (renderNextPage s2).grid = renderNewsItem x ++ joinHTML r := by
  unfold renderNextPage
  rw [hre, h0]
  simp only [Bool.false_eq_true, if_false, Nat.zero_mul, List.drop_zero]
  rcases hP : (if s2.filteredCategory = "all" then s2.allItems
      else s2.allItems.filter fun i => itemCategory i = s2.filteredCategory).take s2.pageSize
    with _ | ⟨y, ys⟩
  · left
    simp [hP]
  · right
    exact ⟨y, ys.map renderNewsItem, by simp [hP, joinHTML]⟩

/-! ### Claim C7 -/

/-- Claim C7: when the news fetch succeeds with an empty item list, the feed
transitions directly to `Exhausted` (`reachedEnd = true`) and displays the
empty-state message, not the error state; the error-display state is entered
exactly on a non-success status or a failing request (a rejected fetch or a
rejected `response.json()`), and never when an ok response parses. -/
theorem emptyNews_exhausts_without_error (parse : String → Option ℤ)
    (st : FeedState) (initial : Bool) (h : st.loading = false) :
    ((fetchLiveNews parse initial
        (.gotResponse { ok := true, json := some { items := some [] } }) st).grid
          = emptyStateHTML
      ∧ (fetchLiveNews parse initial
          (.gotResponse { ok := true, json := some { items := some [] } }) st).reachedEnd
            = true
      ∧ emptyStateHTML ≠ errorStateHTML)
    ∧ (fetchLiveNews parse initial .netError st).grid = errorStateHTML
    ∧ (∀ j : Option NewsPayload,
        (fetchLiveNews parse initial (.gotResponse { ok := false, json := j }) st).grid
          = errorStateHTML)
    ∧ (fetchLiveNews parse initial (.gotResponse { ok := true, json := none }) st).grid
        = errorStateHTML
    ∧ (∀ payload : NewsPayload,
        (fetchLiveNews parse initial (.gotResponse { ok := true, json := some payload }) st).grid
          ≠ errorStateHTML) := by
  refine ⟨⟨by simp [fetchLiveNews, h], by simp [fetchLiveNews, h], by decide⟩,
    by simp [fetchLiveNews, h], fun j => by simp [fetchLiveNews, h],
    by simp [fetchLiveNews, h], ?_⟩
  intro payload
  cases payload with
  | mk oi =>
    cases oi with
    | none =>
      have hg : (fetchLiveNews parse initial
          (.gotResponse { ok := true, json := some { items := none } }) st).grid
            = emptyStateHTML := by
        simp [fetchLiveNews, h]
      rw [hg]
      decide
    | some l =>
      cases l with
      | nil =>
        have hg : (fetchLiveNews parse initial
            (.gotResponse { ok := true, json := some { items := some [] } }) st).grid
              = emptyStateHTML := by
          simp [fetchLiveNews, h]
        rw [hg]
        decide
      | cons y ys =>
        have hstep : fetchLiveNews parse initial
            (.gotResponse { ok := true, json := some { items := some (y :: ys) } }) st
            = renderNextPage
              { (if initial then { st with grid := createSkeletonCards st.pageSize } else st) with
                  allItems := sortNews parse (y :: ys)
                  page := 0
                  reachedEnd := false } := by
          simp [fetchLiveNews, h]
        rw [hstep]
        rcases renderNextPage_page0_grid
            { (if initial then { st with grid := createSkeletonCards st.pageSize } else st) with
                allItems := sortNews parse (y :: ys)
                page := 0
                reachedEnd := false } rfl rfl with hc | ⟨x, r, hc⟩
        · rw [hc]
          decide
        · rw [hc]
          exact cards_ne_error x (joinHTML r)

/-- Closed witness for the C7 theorem. -/
theorem emptyNews_exhausts_witness :
    (fetchLiveNews (fun _ => none) false
        (.gotResponse { ok := true, json := some { items := some [] } }) initialFeedState).grid
      = emptyStateHTML
    ∧ (fetchLiveNews (fun _ => none) false
        (.gotResponse { ok := true, json := some { items := some [] } }) initialFeedState).reachedEnd
      = true
    ∧ (fetchLiveNews (fun _ => none) false .netError initialFeedState).grid = errorStateHTML := by
  have H := emptyNews_exhausts_without_error (fun _ => none) initialFeedState false rfl
  exact ⟨H.1.1, H.1.2.1, H.2.1⟩

/-! ### Claim C10 -/

/-- The per-character escaping map described by the claim: each of the five
characters `&`, `<`, `>`, `"`, `\x27` is replaced by its entity reference and
every other character is kept. -/
def escapeCharSpec (c : Char) : List Char :=
  if c = '&' then "&amp;".data
  else if c = '<' then "&lt;".data
  else if c = '>' then "&gt;".data
  else if c = '"' then "&quot;".data
  else if c = '\x27' then "&#039;".data
  else [c]

/-- `replaceChar` distributes over list append. -/
theorem replaceChar_append (c : Char) (r a b : List Char) :
    replaceChar c r (a ++ b) = replaceChar c r a ++ replaceChar c r b := by
  induction a with
  | nil => rfl
  | cons x xs ih => simp [replaceChar, ih]

/-- The five sequential replaces act on a single character exactly as the
per-character entity map. -/
theorem escapeChain_single (x : Char) :
    replaceChar '\x27' "&#039;".data
      (replaceChar '"' "&quot;".data
        (replaceChar '>' "&gt;".data
          (replaceChar '<' "&lt;".data
            (replaceChar '&' "&amp;".data [x]))))
    = escapeCharSpec x := by
  by_cases h1 : x = '&'
  · subst h1; rfl
  · by_cases h2 : x = '<'
    · subst h2; rfl
    · by_cases h3 : x = '>'
      · subst h3; rfl
      · by_cases h4 : x = '"'
        · subst h4; rfl
        · by_cases h5 : x = '\x27'
          · subst h5; rfl
          · simp [replaceChar, escapeCharSpec, h1, h2, h3, h4, h5]

/-- The five sequential replaces equal a single pass of the per-character
entity map. -/
theorem escapeChain_eq (l : List Char) :
    replaceChar '\x27' "&#039;".data
      (replaceChar '"' "&quot;".data
        (replaceChar '>' "&gt;".data
          (replaceChar '<' "&lt;".data
            (replaceChar '&' "&amp;".data l))))
    = l.flatMap escapeCharSpec := by
  induction l with
  | nil => rfl
  | cons x xs ih =>
    have hx : (x :: xs) = [x] ++ xs := rfl
    rw [hx]
    rw [replaceChar_append, replaceChar_append, replaceChar_append,
      replaceChar_append, replaceChar_append]
    rw [escapeChain_single x, ih]
    simp

/-- Entity expansions introduce none of `<`, `>`, `"`, `\x27`. -/
theorem escapeCharSpec_no_specials (x c : Char) (hc : c ∈ escapeCharSpec x) :
    c ≠ '<' ∧ c ≠ '>' ∧ c ≠ '"' ∧ c ≠ '\x27' := by
  by_cases h1 : x = '&'
  · subst h1; simp [escapeCharSpec] at hc
    rcases hc with rfl | rfl | rfl | rfl | rfl <;> decide
  · by_cases h2 : x = '<'
    · subst h2; simp [escapeCharSpec] at hc
      rcases hc with rfl | rfl | rfl | rfl <;> decide
    · by_cases h3 : x = '>'
      · subst h3; simp [escapeCharSpec] at hc
        rcases hc with rfl | rfl | rfl | rfl <;> decide
      · by_cases h4 : x = '"'
        · subst h4; simp [escapeCharSpec] at hc
          rcases hc with rfl | rfl | rfl | rfl | rfl | rfl <;> decide
        · by_cases h5 : x = '\x27'
          · subst h5; simp [escapeCharSpec] at hc
            rcases hc with rfl | rfl | rfl | rfl | rfl | rfl <;> decide
          · simp [escapeCharSpec, h1, h2, h3, h4, h5] at hc
            subst hc
            exact ⟨h2, h3, h4, h5⟩

/-- Helper: an infix of `t` is an infix of `s ++ t`. -/
theorem infix_of_append_right {l t : List Char} (s : List Char) (h : l <:+: t) :
    l <:+: s ++ t :=
  h.trans (List.suffix_append s t).isInfix

/-- Claim C10: the grid-card markup HTML-escapes `&`, `<`, `>`, `"` and `\x27`
in the title, summary, source and published fields (each passes through
`escapeHTML`, which equals the per-character entity-reference map, and so the
escaped text contains no literal `<`, `>`, `"` or `\x27`), while the link and
image URL fields are interpolated into the markup verbatim, unescaped. -/
theorem renderNewsItem_escapes_fields (it : NewsItem) (s : String) :
    escapeHTML s = String.mk (s.data.flatMap escapeCharSpec)
    ∧ (∀ c ∈ (escapeHTML s).data, c ≠ '<' ∧ c ≠ '>' ∧ c ≠ '"' ∧ c ≠ '\x27')
    ∧ (escapeHTML (jsOr it.title "")).data <:+: (renderNewsItem it).data
    ∧ (escapeHTML (jsOr it.summary "")).data <:+: (renderNewsItem it).data
    ∧ (escapeHTML (jsOr it.source "")).data <:+: (renderNewsItem it).data
    ∧ (escapeHTML (jsOr it.published "")).data <:+: (renderNewsItem it).data
    ∧ (jsOr it.link "#").data <:+: (renderNewsItem it).data
    ∧ (it.image ≠ "" → it.image.data <:+: (renderNewsItem it).data) := by
  refine ⟨?_, ?_, ?_, ?_, ?_, ?_, ?_, ?_⟩
  · unfold escapeHTML
    rw [escapeChain_eq]
  · intro c hc
    have hdata : (escapeHTML s).data = s.data.flatMap escapeCharSpec := by
      unfold escapeHTML
      rw [escapeChain_eq]
    rw [hdata] at hc
    obtain ⟨x, _, hcx⟩ := List.mem_flatMap.mp hc
    exact escapeCharSpec_no_specials x c hcx
  · simp only [renderNewsItem, String.data_append, List.append_assoc]
    iterate 9 apply infix_of_append_right
    exact List.infix_append' _ _ _
  · simp only [renderNewsItem, String.data_append, List.append_assoc]
    iterate 11 apply infix_of_append_right
    exact List.infix_append' _ _ _
  · by_cases hs : escapeHTML (jsOr it.source "") = ""
    · rw [hs]
      exact List.nil_infix
    · simp only [renderNewsItem, String.data_append, List.append_assoc, ne_eq, hs,
        not_false_eq_true, if_true]
      iterate 8 apply infix_of_append_right
      exact List.infix_append' _ _ _
  · simp only [renderNewsItem, String.data_append, List.append_assoc]
    iterate 13 apply infix_of_append_right
    exact List.infix_append' _ _ _
  · simp only [renderNewsItem, String.data_append, List.append_assoc]
    iterate 2 apply infix_of_append_right
    exact List.infix_append' _ _ _
  · intro himg
    have hj : jsOr it.image "" = it.image := by
      by_cases hx : it.image = "" <;> simp [jsOr, hx]
    simp only [renderNewsItem, hj, String.data_append, List.append_assoc, ne_eq, himg,
      not_false_eq_true, if_true]
    iterate 5 apply infix_of_append_right
    exact List.infix_append' _ _ _

/-- A concrete item with escapable fields, used by the C10 witness. -/
def escItem : NewsItem :=
  { title := "A<B", summary := "x&y", source := "S", published := "2024"
    link := "https://e.x/?a=1&b=2", category := "tech", image := "https://img.example/p.png" }

/-- Closed witness for the C10 theorem. -/
theorem renderNewsItem_escapes_witness :
    escapeHTML "a<b" = String.mk ("a<b".data.flatMap escapeCharSpec)
    ∧ ("https://e.x/?a=1&b=2" : String).data <:+: (renderNewsItem escItem).data
    ∧ ("https://img.example/p.png" : String).data <:+: (renderNewsItem escItem).data := by
  have H := renderNewsItem_escapes_fields escItem "a<b"
  refine ⟨H.1, ?_, ?_⟩
  · have h := H.2.2.2.2.2.2.1
    simpa [escItem, jsOr] using h
  · have h := H.2.2.2.2.2.2.2 (by decide)
    simpa [escItem] using h

/-! ### Claim C4 (corrected) -/

/-- The timestamp under which an item is ordered, defaulting NaN to 0 for
statements about lists whose dates all parse. -/
def dateKey (parse : String → Option ℤ) (it : NewsItem) : ℤ :=
  (dateNum parse it.published).getD 0

/-- `newsLE` on two items with parseable dates compares their timestamps,
descending. -/
theorem newsLE_eq_true_iff {parse : String → Option ℤ} {a b : NewsItem} {ka kb : ℤ}
    (ha : dateNum parse a.published = some ka) (hb : dateNum parse b.published = some kb) :
    newsLE parse a b = true ↔ kb ≤ ka := by
  simp only [newsLE, newsCompare, ha, hb, optSub, jsGtZero, Bool.not_eq_true',
    decide_eq_false_iff_not, not_lt]
  omega

/-- A date-parse oracle for the counterexample, matching what ECMAScript
guarantees for the two strings it is applied to: the ISO date `1970-01-02`
parses to 86400000 ms and `not a date` is an invalid date (NaN). -/
def parseCx : String → Option ℤ :=
  fun s => if s = "1970-01-02" then some 86400000 else none

/-- An item whose non-empty `published` string does not parse as a date. -/
def unparsableItem : NewsItem :=
  { title := "U", summary := "", source := "", published := "not a date"
    link := "", category := "", image := "" }

/-- An item published at epoch day one. -/
def epochItem : NewsItem :=
  { title := "E", summary := "", source := "", published := "1970-01-02"
    link := "", category := "", image := "" }

/-- Claim C4 counterexample: an item with an unparsable `published` string is
not placed as oldest.  With the unparsable item first and a parseable (newer
than nothing — it has a real timestamp) item second, every comparison against
the unparsable item is NaN, which the sort treats as a tie, so the list is
returned unchanged: the unparsable item stays at the head, ahead of an item
with a parsed timestamp, instead of sorting to the end. -/
theorem unparsable_date_not_sorted_to_end :
    sortNews parseCx [unparsableItem, epochItem] = [unparsableItem, epochItem]
    ∧ dateNum parseCx unparsableItem.published = none
    ∧ dateNum parseCx epochItem.published = some 86400000 := by
  refine ⟨?_, by decide, by decide⟩
  exact List.mergeSort_of_sorted (by decide)

/-- Claim C4 amended: `fetchLiveNews` stores, for a successful fetch with a
non-empty item list, exactly `sortNews` of the fetched items; and whenever
every item's `published` field parses (`new Date` yields a number, with the
missing/empty field treated as epoch 0), that stored list is a permutation of
the fetched items, is sorted descending by parsed timestamp, and is stable
(for every timestamp, the items carrying it appear in their original order).
An item with an unparsable date, however, is not forced to the end: its
comparisons are NaN ties, so it keeps its relative position (see the
counterexample). -/
theorem loadAll_sorts_stably_when_parseable (parse : String → Option ℤ)
    (st : FeedState) (initial : Bool) (items : List NewsItem)
    (hload : st.loading = false) (hne : items ≠ [])
    (hp : ∀ it ∈ items, (dateNum parse it.published).isSome) :
    (fetchLiveNews parse initial
        (.gotResponse { ok := true, json := some { items := some items } }) st).allItems
      = sortNews parse items
    ∧ (sortNews parse items).Perm items
    ∧ (sortNews parse items).Pairwise (fun a b => dateKey parse b ≤ dateKey parse a)
    ∧ (∀ k : ℤ,
        (sortNews parse items).filter (fun it => decide (dateNum parse it.published = some k))
          = items.filter (fun it => decide (dateNum parse it.published = some k))) := by
  -- the comparator restricted to members of `items` is total and transitive
  have hkey : ∀ a : {x // x ∈ items}, dateNum parse a.val.published = some (dateKey parse a.val) := by
    intro a
    obtain ⟨ka, hka⟩ := Option.isSome_iff_exists.mp (hp a.val a.2)
    rw [hka]
    simp [dateKey, hka]
  have htrans : ∀ a b c : {x // x ∈ items},
      newsLE parse a.val b.val → newsLE parse b.val c.val → newsLE parse a.val c.val := by
    intro a b c hab hbc
    rw [newsLE_eq_true_iff (hkey a) (hkey b)] at hab
    rw [newsLE_eq_true_iff (hkey b) (hkey c)] at hbc
    rw [newsLE_eq_true_iff (hkey a) (hkey c)]
    omega
  have htotal : ∀ a b : {x // x ∈ items},
      newsLE parse a.val b.val || newsLE parse b.val a.val := by
    intro a b
    rw [Bool.or_eq_true, newsLE_eq_true_iff (hkey a) (hkey b),
      newsLE_eq_true_iff (hkey b) (hkey a)]
    omega
  have hmap : (items.attach.mergeSort (fun a b => newsLE parse a.val b.val)).map Subtype.val
      = sortNews parse items := by
    rw [@List.map_mergeSort _ _ (fun a b => newsLE parse a.val b.val) (newsLE parse)
      Subtype.val items.attach (fun a _ b _ => rfl), List.attach_map_subtype_val]
    rfl
  refine ⟨?_, ?_, ?_, ?_⟩
  · -- the stored list is exactly the sorted fetched list
    have hlen : ¬(items.length = 0) := fun h0 => hne (List.length_eq_zero.mp h0)
    simp only [fetchLiveNews, hload, Bool.false_eq_true, if_false, Bool.not_true,
      Option.getD_some, hlen, reduceIte, renderNextPage_allItems]
  · exact List.mergeSort_perm items (newsLE parse)
  · rw [← hmap, List.pairwise_map]
    refine List.Pairwise.imp_of_mem ?_
      (List.sorted_mergeSort htrans (fun a b => htotal a b) items.attach)
    intro a b _ _ hr
    exact (newsLE_eq_true_iff (hkey a) (hkey b)).mp hr
  · intro k
    have hpw : (items.attach.filter
        (fun a => decide (dateNum parse a.val.published = some k))).Pairwise
          (fun a b => newsLE parse a.val b.val) := by
      refine List.pairwise_of_forall_mem_list ?_
      intro a ha b hb
      have ha2 := of_decide_eq_true (List.mem_filter.mp ha).2
      have hb2 := of_decide_eq_true (List.mem_filter.mp hb).2
      exact (newsLE_eq_true_iff ha2 hb2).mpr le_rfl
    have hsubl : List.Sublist
        (items.attach.filter (fun a => decide (dateNum parse a.val.published = some k)))
        (items.attach.mergeSort (fun a b => newsLE parse a.val b.val)) :=
      List.sublist_mergeSort htrans htotal hpw (List.filter_sublist _)
    have hself : (items.attach.filter
          (fun a => decide (dateNum parse a.val.published = some k))).filter
            (fun a => decide (dateNum parse a.val.published = some k))
        = items.attach.filter (fun a => decide (dateNum parse a.val.published = some k)) :=
      List.filter_eq_self.mpr (fun a ha => (List.mem_filter.mp ha).2)
    have hsub2 : List.Sublist
        (items.attach.filter (fun a => decide (dateNum parse a.val.published = some k)))
        ((items.attach.mergeSort (fun a b => newsLE parse a.val b.val)).filter
            (fun a => decide (dateNum parse a.val.published = some k))) := by
      have := hsubl.filter (fun a => decide (dateNum parse a.val.published = some k))
      rwa [hself] at this
    have hperm : ((items.attach.mergeSort (fun a b => newsLE parse a.val b.val)).filter
          (fun a => decide (dateNum parse a.val.published = some k))).Perm
        (items.attach.filter (fun a => decide (dateNum parse a.val.published = some k))) :=
      (List.mergeSort_perm items.attach (fun a b => newsLE parse a.val b.val)).filter _
    have heqf : (items.attach.mergeSort (fun a b => newsLE parse a.val b.val)).filter
          (fun a => decide (dateNum parse a.val.published = some k))
        = items.attach.filter (fun a => decide (dateNum parse a.val.published = some k)) :=
      (hsub2.eq_of_length hperm.length_eq.symm).symm
    calc (sortNews parse items).filter
            (fun it => decide (dateNum parse it.published = some k))
        = ((items.attach.mergeSort (fun a b => newsLE parse a.val b.val)).map
            Subtype.val).filter (fun it => decide (dateNum parse it.published = some k)) := by
          rw [hmap]
      _ = ((items.attach.mergeSort (fun a b => newsLE parse a.val b.val)).filter
            (fun a => decide (dateNum parse a.val.published = some k))).map Subtype.val := by
          rw [List.filter_map]
          rfl
      _ = (items.attach.filter
            (fun a => decide (dateNum parse a.val.published = some k))).map Subtype.val := by
          rw [heqf]
      _ = (items.attach.map Subtype.val).filter
            (fun it => decide (dateNum parse it.published = some k)) := by
          rw [List.filter_map]
          rfl
      _ = items.filter (fun it => decide (dateNum parse it.published = some k)) := by
          rw [List.attach_map_subtype_val]

/-- Closed witness for the amended C4 theorem. -/
theorem loadAll_sorts_witness :
    (fetchLiveNews parseCx false
        (.gotResponse { ok := true, json := some { items := some [epochItem] } })
        initialFeedState).allItems
      = sortNews parseCx [epochItem]
    ∧ (sortNews parseCx [epochItem]).Perm [epochItem] := by
  have H := loadAll_sorts_stably_when_parseable parseCx initialFeedState false [epochItem]
    rfl (by simp) (by decide)
  exact ⟨H.1, H.2.1⟩

end ZeroPrint
